import Mathlib

/-!
Shallow embedding of the hardware-access layer for the STM32 FSDEV USB
peripheral's packet memory area, from
`src/portable/st/stm32_fsdev/fsdev_common.h`.

The repository's configuration does not define `FSDEV_BUS_32BIT`, so the
compiled code is the 16-bit bus geometry (`#else` branches of the header);
that geometry is what is embedded here.  C `uint16_t`/`uint32_t` values are
embedded as `Nat` with explicit `% 65536` / `% 4294967296` truncation at the
points where the C code converts or stores.
-/

/-! ### Buffer-size encoder (`pcd_aligned_buffer_size`) -/

/-- Block unit chosen by `pcd_aligned_buffer_size`:
`uint16_t blocksize = (size > 62) ? 32 : 2;` -/
def fsdev_blocksize (size : Nat) : Nat :=
  if size > 62 then 32 else 2

/-- Rounded-up block count: `uint16_t numblocks = (size + blocksize - 1) / blocksize;`
(the C arithmetic is performed after integer promotion, so no intermediate
truncation occurs for `uint16_t` inputs). -/
def fsdev_numblocks (size : Nat) : Nat :=
  (size + fsdev_blocksize size - 1) / fsdev_blocksize size

/-- `pcd_aligned_buffer_size`: `return numblocks * blocksize;` truncated to the
`uint16_t` return type. -/
def pcd_aligned_buffer_size (size : Nat) : Nat :=
  (fsdev_numblocks size * fsdev_blocksize size) % 65536

/-! ### Buffer descriptor table, 16-bit geometry (`ep16` member of `fsdev_btable_t`) -/

/-- One `ep16` descriptor slot:
`volatile pma_aligned uint16_t addr; volatile pma_aligned uint16_t count;` -/
structure fsdev_ep16 where
  addr : Nat
  count : Nat

/-- `fsdev_btable_t` in the 16-bit geometry: `ep16[FSDEV_EP_COUNT][2]`,
`FSDEV_EP_COUNT = 8`, second index 0: tx, 1: rx. -/
def fsdev_btable_t := Fin 8 → Fin 2 → fsdev_ep16

/-- `btable_get_count` (16-bit branch): `count = FSDEV_BTABLE->ep16[ep_id][is_rx].count;
return count & 0x3FFU;` -/
def btable_get_count (bt : fsdev_btable_t) (ep_id : Fin 8) (is_rx : Fin 2) : Nat :=
  (bt ep_id is_rx).count &&& 0x3FF

/-- `btable_set_count` (16-bit branch):
`uint16_t cnt = FSDEV_BTABLE->ep16[ep_id][is_rx].count;
cnt = (cnt & ~0x3FFU) | (byte_count & 0x3FFU);
FSDEV_BTABLE->ep16[ep_id][is_rx].count = cnt;`
(`~0x3FFU` is the `uint32_t` literal `0xFFFFFC00`; the store truncates to
`uint16_t`). -/
def btable_set_count (bt : fsdev_btable_t) (ep_id : Fin 8) (is_rx : Fin 2)
    (byte_count : Nat) : fsdev_btable_t :=
  let cnt := (bt ep_id is_rx).count
  let cnt := ((cnt &&& 0xFFFFFC00) ||| (byte_count &&& 0x3FF)) % 65536
  fun e d => if e = ep_id ∧ d = is_rx then { bt e d with count := cnt } else bt e d

/-- A concrete descriptor table whose count words carry upper (block-encoding)
bits: every slot holds `addr = 0`, `count = 0x8400`. -/
def btable_upper_bits_example : fsdev_btable_t := fun _ _ => ⟨0, 0x8400⟩

/-! ### PMA word addressing and the RX buffer-size descriptor write -/

/-- `pcd_btable_word_ptr` (16-bit branch): the PMA word index it addresses,
`total_word_offset = ((USBx->BTABLE) >> 1) + x; total_word_offset *= FSDEV_PMA_STRIDE;`.
`FSDEV_PMA_STRIDE` is a build-time constant (2 for a 512-byte PMA, 1
otherwise); the repository's configuration does not pin the PMA size, so the
stride is a parameter here. -/
def pcd_btable_word_offset (stride btable_reg x : Nat) : Nat :=
  ((btable_reg >>> 1) + x) * stride

/-- The 16-bit word written by `pcd_set_ep_blsize_num_blocks` (16-bit branch):
`*pdwReg = (blocksize << 15) | ((numblocks - blocksize) << 10);` with
`uint32_t` operands (wrap-around subtraction) and a `uint16_t` store. -/
def pcd_blsize_num_blocks_word (blocksize numblocks : Nat) : Nat :=
  let nb := (numblocks + (4294967296 - blocksize)) % 4294967296
  (((blocksize <<< 15) % 4294967296) ||| ((nb <<< 10) % 4294967296)) % 65536

/-- `pcd_set_ep_blsize_num_blocks` (16-bit branch): writes the encoded word to
the PMA word holding the count halfword of descriptor slot `rxtx_idx`
(`pcd_btable_word_ptr(USBx, rxtx_idx*2u + 1u)`). -/
def pcd_set_ep_blsize_num_blocks (stride : Nat) (pma : Nat → Nat)
    (btable_reg rxtx_idx blocksize numblocks : Nat) : Nat → Nat :=
  Function.update pma (pcd_btable_word_offset stride btable_reg (rxtx_idx * 2 + 1))
    (pcd_blsize_num_blocks_word blocksize numblocks)

/-- `pcd_set_ep_bufsize`: rounds the requested count, re-derives the block
encoding, checks the `TU_ASSERT` re-construction invariant (`none` models the
assertion firing) and writes the encoded descriptor word.  The `wCount`
parameter is `uint32_t`; `pcd_aligned_buffer_size` takes `uint16_t`, so the
argument is truncated at the call. -/
def pcd_set_ep_bufsize (stride : Nat) (pma : Nat → Nat)
    (btable_reg rxtx_idx wCount : Nat) : Option (Nat → Nat) :=
  let wCount := pcd_aligned_buffer_size (wCount % 65536)
  let blocksize := if wCount > 62 then 1 else 0
  let numblocks := wCount / (if blocksize ≠ 0 then 32 else 2)
  if wCount - numblocks * (if blocksize ≠ 0 then 32 else 2) = 0 then
    some (pcd_set_ep_blsize_num_blocks stride pma btable_reg rxtx_idx blocksize numblocks)
  else
    none

/-! ### Endpoint control register: bit layout and hardware write semantics

The EPnR bit masks come from the target's CMSIS device header, which is not
part of the source fragment; they are modelled from the spec's bit table
(address in the low bits, tx status 4..5, tx data-toggle 6, tx-complete 7,
kind 8, type 9..10, setup 11, rx status 12..13, rx data-toggle 14,
rx-complete 15). -/

/-- Modelled from the spec: rx-complete flag, bit 15 (clear-on-write-0). -/
def USB_EP_CTR_RX : Nat := 0x8000

/-- Modelled from the spec: rx data-toggle, bit 14 (toggle-on-write-1). -/
def USB_EP_DTOG_RX : Nat := 0x4000

/-- Modelled from the spec: rx status field, bits 12..13 (toggle-on-write-1). -/
def USB_EPRX_STAT : Nat := 0x3000

/-- Modelled from the spec: setup flag, bit 11 (read-only). -/
def USB_EP_SETUP : Nat := 0x0800

/-- Modelled from the spec: endpoint type field, bits 9..10. -/
def USB_EP_T_FIELD : Nat := 0x0600

/-- Modelled from the spec: endpoint kind bit, bit 8. -/
def USB_EP_KIND : Nat := 0x0100

/-- Modelled from the spec: tx-complete flag, bit 7 (clear-on-write-0). -/
def USB_EP_CTR_TX : Nat := 0x0080

/-- Modelled from the spec: tx data-toggle, bit 6 (toggle-on-write-1). -/
def USB_EP_DTOG_TX : Nat := 0x0040

/-- Modelled from the spec: tx status field, bits 4..5 (toggle-on-write-1). -/
def USB_EPTX_STAT : Nat := 0x0030

/-- Modelled from the spec: endpoint address field (the low bits; the spec's
bit table assigns bits 4..6 to the tx status/toggle fields, so the address
field proper is bits 0..3). -/
def USB_EPADDR_FIELD : Nat := 0x000F

/-- Modelled from the spec: `USB_EPREG_MASK` — all non-toggle bits (address,
complete flags, setup, type, kind); used to avoid spurious toggles on
read-modify-write. -/
def USB_EPREG_MASK : Nat :=
  USB_EP_CTR_RX ||| USB_EP_SETUP ||| USB_EP_T_FIELD ||| USB_EP_KIND ||| USB_EP_CTR_TX |||
    USB_EPADDR_FIELD

/-- Modelled from the spec: `USB_EP_T_MASK = ~USB_EP_T_FIELD & USB_EPREG_MASK`
(`~USB_EP_T_FIELD` is the `uint32_t` literal `0xFFFFF9FF`). -/
def USB_EP_T_MASK : Nat := 0xFFFFF9FF &&& USB_EPREG_MASK

/-- Modelled from the spec: `USB_EPTX_DTOGMASK = USB_EPTX_STAT | USB_EPREG_MASK`. -/
def USB_EPTX_DTOGMASK : Nat := USB_EPTX_STAT ||| USB_EPREG_MASK

/-- Modelled from the spec: `USB_EPRX_DTOGMASK = USB_EPRX_STAT | USB_EPREG_MASK`. -/
def USB_EPRX_DTOGMASK : Nat := USB_EPRX_STAT ||| USB_EPREG_MASK

/-- Modelled from the spec: tx status values (disabled / stall / nak / valid). -/
def USB_EP_TX_DIS : Nat := 0x0000

/-- Modelled from the spec: tx stall status value. -/
def USB_EP_TX_STALL : Nat := 0x0010

/-- Modelled from the spec: tx nak status value. -/
def USB_EP_TX_NAK : Nat := 0x0020

/-- Modelled from the spec: tx valid status value. -/
def USB_EP_TX_VALID : Nat := 0x0030

/-- Modelled from the spec: rx disabled status value. -/
def USB_EP_RX_DIS : Nat := 0x0000

/-- Modelled from the spec: rx stall status value. -/
def USB_EP_RX_STALL : Nat := 0x1000

/-- Modelled from the spec: rx nak status value. -/
def USB_EP_RX_NAK : Nat := 0x2000

/-- Modelled from the spec: rx valid status value. -/
def USB_EP_RX_VALID : Nat := 0x3000

/-- Modelled from the spec: bulk endpoint type value. -/
def USB_EP_BULK : Nat := 0x0000

/-- Modelled from the spec: control endpoint type value. -/
def USB_EP_CONTROL : Nat := 0x0200

/-- Modelled from the spec: isochronous endpoint type value. -/
def USB_EP_ISOCHRONOUS : Nat := 0x0400

/-- Modelled from the spec: interrupt endpoint type value. -/
def USB_EP_INTERRUPT : Nat := 0x0600

/-- Modelled from the spec: ordinary read-write bits of EPnR (address, kind,
type). -/
def fsdev_hw_rw_mask : Nat := USB_EPADDR_FIELD ||| USB_EP_KIND ||| USB_EP_T_FIELD

/-- Modelled from the spec: toggle-on-write-1 bits of EPnR (both status
fields, both data toggles). -/
def fsdev_hw_toggle_mask : Nat :=
  USB_EPTX_STAT ||| USB_EP_DTOG_TX ||| USB_EPRX_STAT ||| USB_EP_DTOG_RX

/-- Modelled from the spec: write-0-clears / write-1-preserves bits of EPnR
(the two complete flags). -/
def fsdev_hw_rc_w0_mask : Nat := USB_EP_CTR_TX ||| USB_EP_CTR_RX

/-- Modelled from the spec: read-only bit of EPnR (setup). -/
def fsdev_hw_ro_mask : Nat := USB_EP_SETUP

/-- Modelled from the spec: the register value after the hardware applies a
write of `w` to an EPnR register currently holding `cur`: read-write bits
load the written value, status and data-toggle bits flip exactly where a 1 is
written, the complete flags keep their value where a 1 is written and clear
where a 0 is written, and the setup bit is unaffected by writes. -/
def hw_write_ep_reg (cur w : Nat) : Nat :=
  (w &&& fsdev_hw_rw_mask) ||| ((cur ^^^ w) &&& fsdev_hw_toggle_mask) |||
    ((cur &&& w) &&& fsdev_hw_rc_w0_mask) ||| (cur &&& fsdev_hw_ro_mask)

/-- The per-endpoint control register file `EP0R..EP7R` (`FSDEV_EP_COUNT = 8`). -/
def EpRegFile := Fin 8 → Nat

/-- `pcd_get_endpoint` (16-bit branch): volatile read of `EPnR`. -/
def pcd_get_endpoint (regs : EpRegFile) (bEpIdx : Fin 8) : Nat := regs bEpIdx

/-- `pcd_set_endpoint` (16-bit branch): `*reg = (uint16_t)wRegValue;` — a
volatile store, to which the hardware applies its write semantics. -/
def pcd_set_endpoint (regs : EpRegFile) (bEpIdx : Fin 8) (wRegValue : Nat) : EpRegFile :=
  Function.update regs bEpIdx (hw_write_ep_reg (regs bEpIdx) (wRegValue % 65536))

/-- `pcd_set_eptype`: `regVal &= USB_EP_T_MASK; regVal |= wType;
regVal |= USB_EP_CTR_RX | USB_EP_CTR_TX;` -/
def pcd_set_eptype (regs : EpRegFile) (bEpIdx : Fin 8) (wType : Nat) : EpRegFile :=
  let regVal := pcd_get_endpoint regs bEpIdx
  let regVal := regVal &&& USB_EP_T_MASK
  let regVal := regVal ||| wType
  let regVal := regVal ||| (USB_EP_CTR_RX ||| USB_EP_CTR_TX)
  pcd_set_endpoint regs bEpIdx regVal

/-- `pcd_get_eptype`: `regVal &= USB_EP_T_FIELD;` -/
def pcd_get_eptype (regs : EpRegFile) (bEpIdx : Fin 8) : Nat :=
  pcd_get_endpoint regs bEpIdx &&& USB_EP_T_FIELD

/-- `pcd_clear_rx_ep_ctr`: `regVal &= USB_EPREG_MASK; regVal &= ~USB_EP_CTR_RX;
regVal |= USB_EP_CTR_TX;` (`~USB_EP_CTR_RX` is the `uint32_t` literal
`0xFFFF7FFF`). -/
def pcd_clear_rx_ep_ctr (regs : EpRegFile) (bEpIdx : Fin 8) : EpRegFile :=
  let regVal := pcd_get_endpoint regs bEpIdx
  let regVal := regVal &&& USB_EPREG_MASK
  let regVal := regVal &&& 0xFFFF7FFF
  let regVal := regVal ||| USB_EP_CTR_TX
  pcd_set_endpoint regs bEpIdx regVal

/-- `pcd_clear_tx_ep_ctr`: `regVal &= USB_EPREG_MASK; regVal &= ~USB_EP_CTR_TX;
regVal |= USB_EP_CTR_RX;` (`~USB_EP_CTR_TX` is the `uint32_t` literal
`0xFFFFFF7F`). -/
def pcd_clear_tx_ep_ctr (regs : EpRegFile) (bEpIdx : Fin 8) : EpRegFile :=
  let regVal := pcd_get_endpoint regs bEpIdx
  let regVal := regVal &&& USB_EPREG_MASK
  let regVal := regVal &&& 0xFFFFFF7F
  let regVal := regVal ||| USB_EP_CTR_RX
  pcd_set_endpoint regs bEpIdx regVal

/-- `pcd_set_ep_tx_status`: `regVal &= USB_EPTX_DTOGMASK; regVal ^= wState;
regVal |= USB_EP_CTR_RX | USB_EP_CTR_TX;` -/
def pcd_set_ep_tx_status (regs : EpRegFile) (bEpIdx : Fin 8) (wState : Nat) : EpRegFile :=
  let regVal := pcd_get_endpoint regs bEpIdx
  let regVal := regVal &&& USB_EPTX_DTOGMASK
  let regVal := regVal ^^^ wState
  let regVal := regVal ||| (USB_EP_CTR_RX ||| USB_EP_CTR_TX)
  pcd_set_endpoint regs bEpIdx regVal

/-- `pcd_set_ep_rx_status`: `regVal &= USB_EPRX_DTOGMASK; regVal ^= wState;
regVal |= USB_EP_CTR_RX | USB_EP_CTR_TX;` -/
def pcd_set_ep_rx_status (regs : EpRegFile) (bEpIdx : Fin 8) (wState : Nat) : EpRegFile :=
  let regVal := pcd_get_endpoint regs bEpIdx
  let regVal := regVal &&& USB_EPRX_DTOGMASK
  let regVal := regVal ^^^ wState
  let regVal := regVal ||| (USB_EP_CTR_RX ||| USB_EP_CTR_TX)
  pcd_set_endpoint regs bEpIdx regVal

/-- `pcd_get_ep_rx_status`: `return (regVal & USB_EPRX_STAT) >> 12;` -/
def pcd_get_ep_rx_status (regs : EpRegFile) (bEpIdx : Fin 8) : Nat :=
  (pcd_get_endpoint regs bEpIdx &&& USB_EPRX_STAT) >>> 12

/-- `pcd_rx_dtog`: `regVal &= USB_EPREG_MASK;
regVal |= USB_EP_CTR_RX | USB_EP_CTR_TX | USB_EP_DTOG_RX;` -/
def pcd_rx_dtog (regs : EpRegFile) (bEpIdx : Fin 8) : EpRegFile :=
  let regVal := pcd_get_endpoint regs bEpIdx
  let regVal := regVal &&& USB_EPREG_MASK
  let regVal := regVal ||| (USB_EP_CTR_RX ||| USB_EP_CTR_TX ||| USB_EP_DTOG_RX)
  pcd_set_endpoint regs bEpIdx regVal

/-- `pcd_tx_dtog`: `regVal &= USB_EPREG_MASK;
regVal |= USB_EP_CTR_RX | USB_EP_CTR_TX | USB_EP_DTOG_TX;` -/
def pcd_tx_dtog (regs : EpRegFile) (bEpIdx : Fin 8) : EpRegFile :=
  let regVal := pcd_get_endpoint regs bEpIdx
  let regVal := regVal &&& USB_EPREG_MASK
  let regVal := regVal ||| (USB_EP_CTR_RX ||| USB_EP_CTR_TX ||| USB_EP_DTOG_TX)
  pcd_set_endpoint regs bEpIdx regVal

/-- `pcd_clear_rx_dtog`: `if ((regVal & USB_EP_DTOG_RX) != 0) pcd_rx_dtog(...);` -/
def pcd_clear_rx_dtog (regs : EpRegFile) (bEpIdx : Fin 8) : EpRegFile :=
  let regVal := pcd_get_endpoint regs bEpIdx
  if regVal &&& USB_EP_DTOG_RX ≠ 0 then pcd_rx_dtog regs bEpIdx else regs

/-- `pcd_clear_tx_dtog`: `if ((regVal & USB_EP_DTOG_TX) != 0) pcd_tx_dtog(...);` -/
def pcd_clear_tx_dtog (regs : EpRegFile) (bEpIdx : Fin 8) : EpRegFile :=
  let regVal := pcd_get_endpoint regs bEpIdx
  if regVal &&& USB_EP_DTOG_TX ≠ 0 then pcd_tx_dtog regs bEpIdx else regs

/-! ### Theorems -/

/-! ### Theorems about the buffer-size encoder -/

/-- C3: the encoder chooses block unit 2 for requests up to 62 bytes and block
unit 32 for requests in [63, 1023]; `numblocks * blocksize` is the exact
rounding up of the request to a multiple of the unit (i.e. `numblocks` is the
ceiling of the request divided by the unit); at the boundary, a request of 62
gives unit 2 with 31 blocks (62 bytes allocated) and a request of 63 gives
unit 32 with 2 blocks (64 bytes allocated). -/
theorem fsdev_block_selection (size : Nat) :
    (size ≤ 62 → fsdev_blocksize size = 2) ∧
    (63 ≤ size → size ≤ 1023 → fsdev_blocksize size = 32) ∧
    size ≤ fsdev_numblocks size * fsdev_blocksize size ∧
    fsdev_numblocks size * fsdev_blocksize size < size + fsdev_blocksize size ∧
    fsdev_blocksize 62 = 2 ∧ fsdev_numblocks 62 = 31 ∧
    pcd_aligned_buffer_size 62 = 62 ∧
    fsdev_blocksize 63 = 32 ∧ fsdev_numblocks 63 = 2 ∧
    pcd_aligned_buffer_size 63 = 64 := by
  refine ⟨?_, ?_, ?_, ?_, by decide, by decide, by decide, by decide, by decide, by decide⟩
  · intro h
    simp only [fsdev_blocksize]
    split_ifs <;> omega
  · intro h _
    simp only [fsdev_blocksize]
    split_ifs <;> omega
  · simp only [fsdev_numblocks, fsdev_blocksize]
    split_ifs <;> omega
  · simp only [fsdev_numblocks, fsdev_blocksize]
    split_ifs <;> omega

/-- C3 witness: the theorem instantiated at a concrete request size. -/
theorem fsdev_block_selection_witness :
    (62 ≤ 62 → fsdev_blocksize 62 = 2) ∧
    (63 ≤ 62 → 62 ≤ 1023 → fsdev_blocksize 62 = 32) ∧
    62 ≤ fsdev_numblocks 62 * fsdev_blocksize 62 ∧
    fsdev_numblocks 62 * fsdev_blocksize 62 < 62 + fsdev_blocksize 62 ∧
    fsdev_blocksize 62 = 2 ∧ fsdev_numblocks 62 = 31 ∧
    pcd_aligned_buffer_size 62 = 62 ∧
    fsdev_blocksize 63 = 32 ∧ fsdev_numblocks 63 = 2 ∧
    pcd_aligned_buffer_size 63 = 64 :=
  fsdev_block_selection 62

/-- C4: for every requested size in [0, 1023], the aligned buffer size is at
least the request, an exact multiple of the chosen block unit, and at most
`request + unit - 1`. -/
theorem pcd_aligned_buffer_size_bounds (size : Nat) (h : size ≤ 1023) :
    size ≤ pcd_aligned_buffer_size size ∧
    pcd_aligned_buffer_size size % fsdev_blocksize size = 0 ∧
    pcd_aligned_buffer_size size ≤ size + fsdev_blocksize size - 1 := by
  simp only [pcd_aligned_buffer_size, fsdev_numblocks, fsdev_blocksize]
  split_ifs <;> refine ⟨?_, ?_, ?_⟩ <;> omega

/-- C4 witness: the bounds hold at the concrete request 100. -/
theorem pcd_aligned_buffer_size_bounds_witness :
    (100 ≤ 1023) ∧
    (100 ≤ pcd_aligned_buffer_size 100 ∧
     pcd_aligned_buffer_size 100 % fsdev_blocksize 100 = 0 ∧
     pcd_aligned_buffer_size 100 ≤ 100 + fsdev_blocksize 100 - 1) :=
  ⟨by decide, pcd_aligned_buffer_size_bounds 100 (by decide)⟩

/-- C9: `pcd_aligned_buffer_size` is idempotent on every `uint16_t` input
(in particular on [0, 1023]): applying it to its own result is the identity. -/
theorem pcd_aligned_buffer_size_idempotent (size : Nat) (h : size < 65536) :
    pcd_aligned_buffer_size (pcd_aligned_buffer_size size) = pcd_aligned_buffer_size size := by
  simp only [pcd_aligned_buffer_size, fsdev_numblocks, fsdev_blocksize]
  split_ifs <;> omega

/-- C9 witness: idempotence at the concrete input 63. -/
theorem pcd_aligned_buffer_size_idempotent_witness :
    63 < 65536 ∧
    pcd_aligned_buffer_size (pcd_aligned_buffer_size 63) = pcd_aligned_buffer_size 63 :=
  ⟨by decide, pcd_aligned_buffer_size_idempotent 63 (by decide)⟩

/-! ### A small toolkit for bit-level reasoning on masked 16/32-bit words -/

/-- Characterize the bits of a constant mask by a predicate on bit indices. -/
theorem testBit_char {m n : Nat} (p : Nat → Bool) (hm : m < 2 ^ n)
    (h : ∀ i < n, Nat.testBit m i = p i) (hp : ∀ i, n ≤ i → p i = false) :
    ∀ i, Nat.testBit m i = p i := by
  intro i
  rcases Nat.lt_or_ge i n with hi | hi
  · exact h i hi
  · rw [hp i hi]
    exact Nat.testBit_lt_two_pow (Nat.lt_of_lt_of_le hm (Nat.pow_le_pow_right (by norm_num) hi))

/-- Two words masked by the same 16-bit mask agree iff their low 16 bits agree. -/
theorem masked_eq_of_low_bits {a b m : Nat} (hm : m < 65536)
    (h : ∀ i, i < 16 → (a &&& m).testBit i = (b &&& m).testBit i) :
    a &&& m = b &&& m := by
  apply Nat.eq_of_testBit_eq
  intro i
  rcases Nat.lt_or_ge i 16 with hi | hi
  · exact h i hi
  · have hb : (2 : Nat) ^ 16 ≤ 2 ^ i := Nat.pow_le_pow_right (by norm_num) hi
    have hm16 : m < 2 ^ 16 := by norm_num at hm ⊢; omega
    rw [Nat.testBit_lt_two_pow (Nat.lt_of_lt_of_le (Nat.and_lt_two_pow _ hm16) hb),
        Nat.testBit_lt_two_pow (Nat.lt_of_lt_of_le (Nat.and_lt_two_pow _ hm16) hb)]

/-- Truncation to `uint16_t` at the bit level. -/
theorem testBit_mod_65536 (x i : Nat) :
    (x % 65536).testBit i = (decide (i < 16) && x.testBit i) := by
  have h : (65536 : Nat) = 2 ^ 16 := by norm_num
  rw [h, Nat.testBit_mod_two_pow]

theorem tb_x3FF : ∀ i, Nat.testBit 0x3FF i = decide (i ≤ 9) :=
  testBit_char (m := 0x3FF) (n := 16) (fun i => decide (i ≤ 9))
    (by norm_num) (by decide) (fun i hi => by simp; omega)

theorem tb_xFC00 : ∀ i, Nat.testBit 0xFC00 i = (10 ≤ i && i ≤ 15) :=
  testBit_char (m := 0xFC00) (n := 16) (fun i => 10 ≤ i && i ≤ 15)
    (by norm_num) (by decide) (fun i hi => by simp; omega)

theorem tb_xFFFFFC00 : ∀ i, Nat.testBit 0xFFFFFC00 i = (10 ≤ i && i ≤ 31) :=
  testBit_char (m := 0xFFFFFC00) (n := 32) (fun i => 10 ≤ i && i ≤ 31)
    (by norm_num) (by decide) (fun i hi => by simp; omega)

/-! ### Theorems about `btable_set_count` -/

/-- C2 counterexample: `btable_set_count` on the tx direction (`is_rx = 0`)
does NOT overwrite the whole 16-bit count field with the new count — with a
prior stored count word of `0x8400`, setting the tx count to 5 leaves the
upper bits in place (the result is `0x8405`, not `5`). -/
theorem btable_set_count_tx_overwrite_false :
    ¬ ((btable_set_count btable_upper_bits_example 0 0 5) 0 0).count = 5 := by
  decide

/-- C2 (amended): `btable_set_count` performs the same read-modify-write for
BOTH directions: for every endpoint index, direction (tx `is_rx = 0` as well
as rx `is_rx = 1`) and prior stored descriptor count word, it preserves the
upper block-size/num-blocks bits (bits 10..15) and replaces only the low 10
count bits with the new count. -/
theorem btable_set_count_preserves_upper_bits (bt : fsdev_btable_t) (ep_id : Fin 8)
    (is_rx : Fin 2) (byte_count : Nat) :
    ((btable_set_count bt ep_id is_rx byte_count) ep_id is_rx).count &&& 0xFC00
      = (bt ep_id is_rx).count &&& 0xFC00 ∧
    ((btable_set_count bt ep_id is_rx byte_count) ep_id is_rx).count &&& 0x3FF
      = byte_count &&& 0x3FF := by
  constructor
  · apply masked_eq_of_low_bits (by norm_num)
    intro i hi
    simp only [btable_set_count, if_pos (And.intro rfl rfl)]
    interval_cases i <;>
      simp only [Nat.testBit_or, Nat.testBit_and, testBit_mod_65536, tb_x3FF, tb_xFC00,
        tb_xFFFFFC00] <;> simp
  · apply masked_eq_of_low_bits (by norm_num)
    intro i hi
    simp only [btable_set_count, if_pos (And.intro rfl rfl)]
    interval_cases i <;>
      simp only [Nat.testBit_or, Nat.testBit_and, testBit_mod_65536, tb_x3FF, tb_xFC00,
        tb_xFFFFFC00] <;> simp

/-! ### Theorems about the descriptor encoding -/

/-- C5: in the descriptor word written by `pcd_set_ep_blsize_num_blocks`, the
block-size flag sits in the top bit (bit 15) and the stored 5-bit block count
(bits 10..14) holds `numblocks - 1` when the flag is 1 and `numblocks`
unmodified when the flag is 0. -/
theorem pcd_set_ep_blsize_num_blocks_bias (stride : Nat) (pma : Nat → Nat)
    (btable_reg rxtx_idx blocksize numblocks : Nat)
    (hbs : blocksize = 0 ∨ blocksize = 1)
    (h1 : blocksize = 1 → 1 ≤ numblocks ∧ numblocks ≤ 32)
    (h0 : blocksize = 0 → numblocks < 32) :
    (pcd_set_ep_blsize_num_blocks stride pma btable_reg rxtx_idx blocksize numblocks
        (pcd_btable_word_offset stride btable_reg (rxtx_idx * 2 + 1))).testBit 15
      = (blocksize == 1) ∧
    ((pcd_set_ep_blsize_num_blocks stride pma btable_reg rxtx_idx blocksize numblocks
        (pcd_btable_word_offset stride btable_reg (rxtx_idx * 2 + 1))) >>> 10) &&& 0x1F
      = numblocks - blocksize := by
  simp only [pcd_set_ep_blsize_num_blocks, Function.update_same]
  rcases hbs with h | h <;> subst h
  · have hnb : numblocks < 32 := h0 rfl
    interval_cases numblocks <;> exact ⟨by decide, by decide⟩
  · obtain ⟨hl, hr⟩ := h1 rfl
    interval_cases numblocks <;> exact ⟨by decide, by decide⟩

/-- C5 witness: the encoding at `blocksize = 1`, `numblocks = 2` (and a
trivial PMA): the flag bit is set and the stored count is 1. -/
theorem pcd_set_ep_blsize_num_blocks_bias_witness :
    (pcd_set_ep_blsize_num_blocks 1 (fun _ => 0) 0 0 1 2
        (pcd_btable_word_offset 1 0 (0 * 2 + 1))).testBit 15 = (1 == 1) ∧
    ((pcd_set_ep_blsize_num_blocks 1 (fun _ => 0) 0 0 1 2
        (pcd_btable_word_offset 1 0 (0 * 2 + 1))) >>> 10) &&& 0x1F = 2 - 1 :=
  pcd_set_ep_blsize_num_blocks_bias 1 (fun _ => 0) 0 0 1 2 (Or.inr rfl)
    (fun _ => ⟨by decide, by decide⟩) (fun h => by simp at h)

/-- C6: the `TU_ASSERT` in `pcd_set_ep_bufsize` never fires: for every
caller-supplied byte count (and every stride, PMA state, BTABLE base and
descriptor index), the rounded count is an exact multiple of the re-derived
block unit, so the function always reaches the descriptor write. -/
theorem pcd_set_ep_bufsize_assert_never_fires (stride : Nat) (pma : Nat → Nat)
    (btable_reg rxtx_idx wCount : Nat) :
    (pcd_set_ep_bufsize stride pma btable_reg rxtx_idx wCount).isSome = true := by
  simp only [pcd_set_ep_bufsize, pcd_aligned_buffer_size, fsdev_numblocks, fsdev_blocksize]
  split_ifs <;> simp_all <;> omega

/-! ### Bit characterizations of the register masks -/

theorem tb_EPREG_MASK : ∀ i, Nat.testBit USB_EPREG_MASK i =
    (i ≤ 3 || 7 ≤ i && i ≤ 11 || i == 15) :=
  testBit_char (m := USB_EPREG_MASK) (n := 16)
    (fun i => i ≤ 3 || 7 ≤ i && i ≤ 11 || i == 15)
    (by decide) (by decide) (fun i hi => by simp; omega)

theorem tb_T_MASK : ∀ i, Nat.testBit USB_EP_T_MASK i =
    (i ≤ 3 || i == 7 || i == 8 || i == 11 || i == 15) :=
  testBit_char (m := USB_EP_T_MASK) (n := 16)
    (fun i => i ≤ 3 || i == 7 || i == 8 || i == 11 || i == 15)
    (by decide) (by decide) (fun i hi => by simp; omega)

theorem tb_T_FIELD : ∀ i, Nat.testBit USB_EP_T_FIELD i = (i == 9 || i == 10) :=
  testBit_char (m := USB_EP_T_FIELD) (n := 16) (fun i => i == 9 || i == 10)
    (by decide) (by decide) (fun i hi => by simp; omega)

theorem tb_EPTX_DTOGMASK : ∀ i, Nat.testBit USB_EPTX_DTOGMASK i =
    (i ≤ 5 || 7 ≤ i && i ≤ 11 || i == 15) :=
  testBit_char (m := USB_EPTX_DTOGMASK) (n := 16)
    (fun i => i ≤ 5 || 7 ≤ i && i ≤ 11 || i == 15)
    (by decide) (by decide) (fun i hi => by simp; omega)

theorem tb_EPRX_DTOGMASK : ∀ i, Nat.testBit USB_EPRX_DTOGMASK i =
    (i ≤ 3 || 7 ≤ i && i ≤ 13 || i == 15) :=
  testBit_char (m := USB_EPRX_DTOGMASK) (n := 16)
    (fun i => i ≤ 3 || 7 ≤ i && i ≤ 13 || i == 15)
    (by decide) (by decide) (fun i hi => by simp; omega)

theorem tb_CTR_RX : ∀ i, Nat.testBit USB_EP_CTR_RX i = (i == 15) :=
  testBit_char (m := USB_EP_CTR_RX) (n := 16) (fun i => i == 15)
    (by decide) (by decide) (fun i hi => by simp; omega)

theorem tb_CTR_TX : ∀ i, Nat.testBit USB_EP_CTR_TX i = (i == 7) :=
  testBit_char (m := USB_EP_CTR_TX) (n := 16) (fun i => i == 7)
    (by decide) (by decide) (fun i hi => by simp; omega)

theorem tb_DTOG_RX : ∀ i, Nat.testBit USB_EP_DTOG_RX i = (i == 14) :=
  testBit_char (m := USB_EP_DTOG_RX) (n := 16) (fun i => i == 14)
    (by decide) (by decide) (fun i hi => by simp; omega)

theorem tb_DTOG_TX : ∀ i, Nat.testBit USB_EP_DTOG_TX i = (i == 6) :=
  testBit_char (m := USB_EP_DTOG_TX) (n := 16) (fun i => i == 6)
    (by decide) (by decide) (fun i hi => by simp; omega)

theorem tb_EPRX_STAT : ∀ i, Nat.testBit USB_EPRX_STAT i = (i == 12 || i == 13) :=
  testBit_char (m := USB_EPRX_STAT) (n := 16) (fun i => i == 12 || i == 13)
    (by decide) (by decide) (fun i hi => by simp; omega)

theorem tb_EPTX_STAT : ∀ i, Nat.testBit USB_EPTX_STAT i = (i == 4 || i == 5) :=
  testBit_char (m := USB_EPTX_STAT) (n := 16) (fun i => i == 4 || i == 5)
    (by decide) (by decide) (fun i hi => by simp; omega)

theorem tb_EPADDR_FIELD : ∀ i, Nat.testBit USB_EPADDR_FIELD i = decide (i ≤ 3) :=
  testBit_char (m := USB_EPADDR_FIELD) (n := 16) (fun i => decide (i ≤ 3))
    (by decide) (by decide) (fun i hi => by simp; omega)

theorem tb_rw_mask : ∀ i, Nat.testBit fsdev_hw_rw_mask i =
    (i ≤ 3 || 8 ≤ i && i ≤ 10) :=
  testBit_char (m := fsdev_hw_rw_mask) (n := 16) (fun i => i ≤ 3 || 8 ≤ i && i ≤ 10)
    (by decide) (by decide) (fun i hi => by simp; omega)

theorem tb_toggle_mask : ∀ i, Nat.testBit fsdev_hw_toggle_mask i =
    (4 ≤ i && i ≤ 6 || 12 ≤ i && i ≤ 14) :=
  testBit_char (m := fsdev_hw_toggle_mask) (n := 16)
    (fun i => 4 ≤ i && i ≤ 6 || 12 ≤ i && i ≤ 14)
    (by decide) (by decide) (fun i hi => by simp; omega)

theorem tb_rc_w0_mask : ∀ i, Nat.testBit fsdev_hw_rc_w0_mask i = (i == 7 || i == 15) :=
  testBit_char (m := fsdev_hw_rc_w0_mask) (n := 16) (fun i => i == 7 || i == 15)
    (by decide) (by decide) (fun i hi => by simp; omega)

theorem tb_ro_mask : ∀ i, Nat.testBit fsdev_hw_ro_mask i = (i == 11) :=
  testBit_char (m := fsdev_hw_ro_mask) (n := 16) (fun i => i == 11)
    (by decide) (by decide) (fun i hi => by simp; omega)

theorem tb_xFFFF7FFF : ∀ i, Nat.testBit 0xFFFF7FFF i = (i != 15 && i ≤ 31) :=
  testBit_char (m := 0xFFFF7FFF) (n := 32) (fun i => i != 15 && i ≤ 31)
    (by norm_num) (by decide) (fun i hi => by simp; omega)

theorem tb_xFFFFFF7F : ∀ i, Nat.testBit 0xFFFFFF7F i = (i != 7 && i ≤ 31) :=
  testBit_char (m := 0xFFFFFF7F) (n := 32) (fun i => i != 7 && i ≤ 31)
    (by norm_num) (by decide) (fun i hi => by simp; omega)

theorem tb_TX_STALL : ∀ i, Nat.testBit USB_EP_TX_STALL i = (i == 4) :=
  testBit_char (m := USB_EP_TX_STALL) (n := 16) (fun i => i == 4)
    (by decide) (by decide) (fun i hi => by simp; omega)

theorem tb_TX_NAK : ∀ i, Nat.testBit USB_EP_TX_NAK i = (i == 5) :=
  testBit_char (m := USB_EP_TX_NAK) (n := 16) (fun i => i == 5)
    (by decide) (by decide) (fun i hi => by simp; omega)

theorem tb_TX_VALID : ∀ i, Nat.testBit USB_EP_TX_VALID i = (i == 4 || i == 5) :=
  testBit_char (m := USB_EP_TX_VALID) (n := 16) (fun i => i == 4 || i == 5)
    (by decide) (by decide) (fun i hi => by simp; omega)

theorem tb_RX_STALL : ∀ i, Nat.testBit USB_EP_RX_STALL i = (i == 12) :=
  testBit_char (m := USB_EP_RX_STALL) (n := 16) (fun i => i == 12)
    (by decide) (by decide) (fun i hi => by simp; omega)

theorem tb_RX_NAK : ∀ i, Nat.testBit USB_EP_RX_NAK i = (i == 13) :=
  testBit_char (m := USB_EP_RX_NAK) (n := 16) (fun i => i == 13)
    (by decide) (by decide) (fun i hi => by simp; omega)

theorem tb_RX_VALID : ∀ i, Nat.testBit USB_EP_RX_VALID i = (i == 12 || i == 13) :=
  testBit_char (m := USB_EP_RX_VALID) (n := 16) (fun i => i == 12 || i == 13)
    (by decide) (by decide) (fun i hi => by simp; omega)

theorem tb_CONTROL : ∀ i, Nat.testBit USB_EP_CONTROL i = (i == 9) :=
  testBit_char (m := USB_EP_CONTROL) (n := 16) (fun i => i == 9)
    (by decide) (by decide) (fun i hi => by simp; omega)

theorem tb_ISOCHRONOUS : ∀ i, Nat.testBit USB_EP_ISOCHRONOUS i = (i == 10) :=
  testBit_char (m := USB_EP_ISOCHRONOUS) (n := 16) (fun i => i == 10)
    (by decide) (by decide) (fun i hi => by simp; omega)

theorem tb_INTERRUPT : ∀ i, Nat.testBit USB_EP_INTERRUPT i = (i == 9 || i == 10) :=
  testBit_char (m := USB_EP_INTERRUPT) (n := 16) (fun i => i == 9 || i == 10)
    (by decide) (by decide) (fun i hi => by simp; omega)

theorem bool_xor_cancel_left (a b : Bool) : (a ^^ (a ^^ b)) = b := by
  cases a <;> cases b <;> rfl

attribute [simp] tb_x3FF tb_xFC00 tb_xFFFFFC00 tb_EPREG_MASK tb_T_MASK tb_T_FIELD
  tb_EPTX_DTOGMASK tb_EPRX_DTOGMASK tb_CTR_RX tb_CTR_TX tb_DTOG_RX tb_DTOG_TX
  tb_EPRX_STAT tb_EPTX_STAT tb_EPADDR_FIELD tb_rw_mask tb_toggle_mask tb_rc_w0_mask
  tb_ro_mask tb_xFFFF7FFF tb_xFFFFFF7F tb_TX_STALL tb_TX_NAK tb_TX_VALID tb_RX_STALL
  tb_RX_NAK tb_RX_VALID tb_CONTROL tb_ISOCHRONOUS tb_INTERRUPT bool_xor_cancel_left

/-- Equality of two 16-bit words follows from agreement on bits 0..15. -/
theorem eq_of_low_bits {a b : Nat} (ha : a < 2 ^ 16) (hb : b < 2 ^ 16)
    (h : ∀ i, i < 16 → a.testBit i = b.testBit i) : a = b := by
  apply Nat.eq_of_testBit_eq
  intro i
  rcases Nat.lt_or_ge i 16 with hi | hi
  · exact h i hi
  · have hp : (2 : Nat) ^ 16 ≤ 2 ^ i := Nat.pow_le_pow_right (by norm_num) hi
    rw [Nat.testBit_lt_two_pow (lt_of_lt_of_le ha hp),
        Nat.testBit_lt_two_pow (lt_of_lt_of_le hb hp)]

/-- C1: under the hardware write semantics (write-1 preserves a complete
flag, write-0 clears it), `pcd_clear_tx_ep_ctr` leaves the rx-complete flag
bit of the endpoint's control register exactly as it was, and symmetrically
`pcd_clear_rx_ep_ctr` leaves the tx-complete flag bit unchanged, for every
endpoint index and every initial register value. -/
theorem pcd_clear_ep_ctr_preserves_other_flag (regs : EpRegFile) (bEpIdx : Fin 8) :
    pcd_clear_tx_ep_ctr regs bEpIdx bEpIdx &&& USB_EP_CTR_RX
      = regs bEpIdx &&& USB_EP_CTR_RX ∧
    pcd_clear_rx_ep_ctr regs bEpIdx bEpIdx &&& USB_EP_CTR_TX
      = regs bEpIdx &&& USB_EP_CTR_TX := by
  constructor
  · apply eq_of_low_bits (Nat.and_lt_two_pow _ (by decide)) (Nat.and_lt_two_pow _ (by decide))
    intro i hi
    simp only [pcd_clear_tx_ep_ctr, pcd_get_endpoint, pcd_set_endpoint,
      Function.update_same, hw_write_ep_reg]
    interval_cases i <;>
      simp only [Nat.testBit_or, Nat.testBit_and, Nat.testBit_xor, testBit_mod_65536,
        tb_EPREG_MASK, tb_xFFFFFF7F, tb_xFFFF7FFF, tb_CTR_RX, tb_CTR_TX, tb_rw_mask,
        tb_toggle_mask, tb_rc_w0_mask, tb_ro_mask] <;> simp
  · apply eq_of_low_bits (Nat.and_lt_two_pow _ (by decide)) (Nat.and_lt_two_pow _ (by decide))
    intro i hi
    simp only [pcd_clear_rx_ep_ctr, pcd_get_endpoint, pcd_set_endpoint,
      Function.update_same, hw_write_ep_reg]
    interval_cases i <;>
      simp only [Nat.testBit_or, Nat.testBit_and, Nat.testBit_xor, testBit_mod_65536,
        tb_EPREG_MASK, tb_xFFFFFF7F, tb_xFFFF7FFF, tb_CTR_RX, tb_CTR_TX, tb_rw_mask,
        tb_toggle_mask, tb_rc_w0_mask, tb_ro_mask] <;> simp

/-- A word ANDed with a single-bit mask is nonzero iff that bit is set. -/
theorem and_single_bit_ne_zero {m k : Nat} (hm : ∀ i, Nat.testBit m i = (i == k))
    (x : Nat) : x &&& m ≠ 0 ↔ x.testBit k = true := by
  constructor
  · intro h
    by_contra hc
    apply h
    apply Nat.eq_of_testBit_eq
    intro i
    simp only [Nat.testBit_and, hm, Nat.zero_testBit]
    rcases eq_or_ne i k with rfl | hne
    · rw [Bool.not_eq_true] at hc
      simp [hc]
    · simp [hne]
  · intro hk hz
    have h2 := congrArg (fun t => Nat.testBit t k) hz
    simp [Nat.testBit_and, hm, hk] at h2

/-- C10: `pcd_clear_tx_dtog` (resp. `pcd_clear_rx_dtog`) leaves the
corresponding data-toggle bit at 0; moreover, when that toggle bit is already
0 on entry the operation performs no register write at all, so the whole
register file (every field of every endpoint control register, including both
complete flags) is exactly unchanged. -/
theorem pcd_clear_dtog_clears_or_skips (regs : EpRegFile) (bEpIdx : Fin 8) :
    (pcd_clear_tx_dtog regs bEpIdx bEpIdx &&& USB_EP_DTOG_TX = 0) ∧
    (pcd_clear_rx_dtog regs bEpIdx bEpIdx &&& USB_EP_DTOG_RX = 0) ∧
    (regs bEpIdx &&& USB_EP_DTOG_TX = 0 → pcd_clear_tx_dtog regs bEpIdx = regs) ∧
    (regs bEpIdx &&& USB_EP_DTOG_RX = 0 → pcd_clear_rx_dtog regs bEpIdx = regs) := by
  refine ⟨?_, ?_, ?_, ?_⟩
  · rcases eq_or_ne (regs bEpIdx &&& USB_EP_DTOG_TX) 0 with h | h
    · simp [pcd_clear_tx_dtog, pcd_get_endpoint, h]
    · have h6 := (and_single_bit_ne_zero tb_DTOG_TX (regs bEpIdx)).mp h
      simp only [pcd_clear_tx_dtog, pcd_get_endpoint, if_pos h]
      apply eq_of_low_bits (Nat.and_lt_two_pow _ (by decide)) (by norm_num)
      intro i hi
      simp only [pcd_tx_dtog, pcd_get_endpoint, pcd_set_endpoint, Function.update_same,
        hw_write_ep_reg]
      interval_cases i <;>
        simp only [Nat.testBit_or, Nat.testBit_and, Nat.testBit_xor, testBit_mod_65536,
          tb_EPREG_MASK, tb_CTR_RX, tb_CTR_TX, tb_DTOG_TX, tb_DTOG_RX, tb_rw_mask,
          tb_toggle_mask, tb_rc_w0_mask, tb_ro_mask, Nat.zero_testBit] <;> simp [h6]
  · rcases eq_or_ne (regs bEpIdx &&& USB_EP_DTOG_RX) 0 with h | h
    · simp [pcd_clear_rx_dtog, pcd_get_endpoint, h]
    · have h14 := (and_single_bit_ne_zero tb_DTOG_RX (regs bEpIdx)).mp h
      simp only [pcd_clear_rx_dtog, pcd_get_endpoint, if_pos h]
      apply eq_of_low_bits (Nat.and_lt_two_pow _ (by decide)) (by norm_num)
      intro i hi
      simp only [pcd_rx_dtog, pcd_get_endpoint, pcd_set_endpoint, Function.update_same,
        hw_write_ep_reg]
      interval_cases i <;>
        simp only [Nat.testBit_or, Nat.testBit_and, Nat.testBit_xor, testBit_mod_65536,
          tb_EPREG_MASK, tb_CTR_RX, tb_CTR_TX, tb_DTOG_TX, tb_DTOG_RX, tb_rw_mask,
          tb_toggle_mask, tb_rc_w0_mask, tb_ro_mask, Nat.zero_testBit] <;> simp [h14]
  · intro h
    simp [pcd_clear_tx_dtog, pcd_get_endpoint, h]
  · intro h
    simp [pcd_clear_rx_dtog, pcd_get_endpoint, h]

/-- C10 witness: at the all-ones register file the tx toggle ends cleared;
at the all-zeros register file the operation is the identity (hypothesis
discharged concretely). -/
theorem pcd_clear_dtog_clears_or_skips_witness :
    ((pcd_clear_tx_dtog (fun _ => 0xFFFF) 0 0 &&& USB_EP_DTOG_TX = 0) ∧
     ((fun _ : Fin 8 => (0 : Nat)) 0 &&& USB_EP_DTOG_TX = 0 →
       pcd_clear_tx_dtog (fun _ => 0) 0 = (fun _ => 0))) :=
  ⟨(pcd_clear_dtog_clears_or_skips (fun _ => 0xFFFF) 0).1,
   (pcd_clear_dtog_clears_or_skips (fun _ => 0) 0).2.2.1⟩

theorem tb_BULK : ∀ i, Nat.testBit USB_EP_BULK i = false :=
  testBit_char (m := USB_EP_BULK) (n := 16) (fun _ => false)
    (by decide) (by decide) (fun i hi => rfl)

theorem tb_TX_DIS : ∀ i, Nat.testBit USB_EP_TX_DIS i = false :=
  testBit_char (m := USB_EP_TX_DIS) (n := 16) (fun _ => false)
    (by decide) (by decide) (fun i hi => rfl)

theorem tb_RX_DIS : ∀ i, Nat.testBit USB_EP_RX_DIS i = false :=
  testBit_char (m := USB_EP_RX_DIS) (n := 16) (fun _ => false)
    (by decide) (by decide) (fun i hi => rfl)

attribute [simp] tb_BULK tb_TX_DIS tb_RX_DIS


set_option maxHeartbeats 2000000 in
/-- C8: under the hardware write semantics, `pcd_set_eptype` leaves the
address field, both 2-bit status fields and both data-toggle bits of the
endpoint control register exactly as they were, and `pcd_get_eptype`
afterwards returns the newly written type. -/
theorem pcd_set_eptype_frame (regs : EpRegFile) (bEpIdx : Fin 8) (wType : Nat)
    (hty : wType = USB_EP_BULK ∨ wType = USB_EP_CONTROL ∨ wType = USB_EP_ISOCHRONOUS ∨
      wType = USB_EP_INTERRUPT) :
    pcd_get_eptype (pcd_set_eptype regs bEpIdx wType) bEpIdx = wType ∧
    pcd_set_eptype regs bEpIdx wType bEpIdx &&& USB_EPADDR_FIELD
      = regs bEpIdx &&& USB_EPADDR_FIELD ∧
    pcd_set_eptype regs bEpIdx wType bEpIdx &&& USB_EPTX_STAT
      = regs bEpIdx &&& USB_EPTX_STAT ∧
    pcd_set_eptype regs bEpIdx wType bEpIdx &&& USB_EPRX_STAT
      = regs bEpIdx &&& USB_EPRX_STAT ∧
    pcd_set_eptype regs bEpIdx wType bEpIdx &&& USB_EP_DTOG_TX
      = regs bEpIdx &&& USB_EP_DTOG_TX ∧
    pcd_set_eptype regs bEpIdx wType bEpIdx &&& USB_EP_DTOG_RX
      = regs bEpIdx &&& USB_EP_DTOG_RX := by
  have hw : ∀ i, i ≠ 9 → i ≠ 10 → wType.testBit i = false := by
    rcases hty with h | h | h | h <;> subst h <;> intro i h9 h10 <;>
      simp [h9, h10]
  have hwlt : wType < 2 ^ 16 := by
    rcases hty with h | h | h | h <;> subst h <;> decide
  simp only [pcd_get_eptype, pcd_set_eptype, pcd_get_endpoint, pcd_set_endpoint,
    Function.update_same, hw_write_ep_reg]
  refine ⟨?_, ?_, ?_, ?_, ?_, ?_⟩ <;>
  · apply eq_of_low_bits (Nat.and_lt_two_pow _ (by decide))
      (by first | exact Nat.and_lt_two_pow _ (by decide) | exact hwlt)
    intro i hi
    interval_cases i <;>
      simp only [Nat.testBit_or, Nat.testBit_and, Nat.testBit_xor, testBit_mod_65536,
        tb_T_MASK, tb_T_FIELD, tb_CTR_RX, tb_CTR_TX, tb_EPADDR_FIELD, tb_EPTX_STAT,
        tb_EPRX_STAT, tb_DTOG_TX, tb_DTOG_RX, tb_rw_mask, tb_toggle_mask, tb_rc_w0_mask,
        tb_ro_mask] <;>
      simp [hw]

/-- C8 witness: the frame property at a concrete register file (register
value `0x5A5A` everywhere), endpoint 2, type control. -/
theorem pcd_set_eptype_frame_witness :
    pcd_get_eptype (pcd_set_eptype (fun _ => 0x5A5A) 2 USB_EP_CONTROL) 2 = USB_EP_CONTROL ∧
    pcd_set_eptype (fun _ => 0x5A5A) 2 USB_EP_CONTROL 2 &&& USB_EPADDR_FIELD
      = (fun _ : Fin 8 => (0x5A5A : Nat)) 2 &&& USB_EPADDR_FIELD ∧
    pcd_set_eptype (fun _ => 0x5A5A) 2 USB_EP_CONTROL 2 &&& USB_EPTX_STAT
      = (fun _ : Fin 8 => (0x5A5A : Nat)) 2 &&& USB_EPTX_STAT ∧
    pcd_set_eptype (fun _ => 0x5A5A) 2 USB_EP_CONTROL 2 &&& USB_EPRX_STAT
      = (fun _ : Fin 8 => (0x5A5A : Nat)) 2 &&& USB_EPRX_STAT ∧
    pcd_set_eptype (fun _ => 0x5A5A) 2 USB_EP_CONTROL 2 &&& USB_EP_DTOG_TX
      = (fun _ : Fin 8 => (0x5A5A : Nat)) 2 &&& USB_EP_DTOG_TX ∧
    pcd_set_eptype (fun _ => 0x5A5A) 2 USB_EP_CONTROL 2 &&& USB_EP_DTOG_RX
      = (fun _ : Fin 8 => (0x5A5A : Nat)) 2 &&& USB_EP_DTOG_RX :=
  pcd_set_eptype_frame (fun _ => 0x5A5A) 2 USB_EP_CONTROL (Or.inr (Or.inl rfl))

set_option maxHeartbeats 2000000 in
/-- C7: under the hardware toggle-on-write-1 semantics, `pcd_set_ep_tx_status`
makes the tx status field decode to exactly the target state while the rx
status field receives an all-zero delta and is unaffected; symmetrically,
after `pcd_set_ep_rx_status` the rx status field (as read back by
`pcd_get_ep_rx_status`) decodes to exactly the target state while the tx
status field is unaffected. -/
theorem pcd_set_ep_status_target_and_frame (regs : EpRegFile) (bEpIdx : Fin 8)
    (txState rxState : Nat)
    (htx : txState = USB_EP_TX_DIS ∨ txState = USB_EP_TX_STALL ∨ txState = USB_EP_TX_NAK ∨
      txState = USB_EP_TX_VALID)
    (hrx : rxState = USB_EP_RX_DIS ∨ rxState = USB_EP_RX_STALL ∨ rxState = USB_EP_RX_NAK ∨
      rxState = USB_EP_RX_VALID) :
    pcd_set_ep_tx_status regs bEpIdx txState bEpIdx &&& USB_EPTX_STAT = txState ∧
    pcd_set_ep_tx_status regs bEpIdx txState bEpIdx &&& USB_EPRX_STAT
      = regs bEpIdx &&& USB_EPRX_STAT ∧
    pcd_get_ep_rx_status (pcd_set_ep_rx_status regs bEpIdx rxState) bEpIdx
      = rxState >>> 12 ∧
    pcd_set_ep_rx_status regs bEpIdx rxState bEpIdx &&& USB_EPTX_STAT
      = regs bEpIdx &&& USB_EPTX_STAT := by
  have htb : ∀ i, i ≠ 4 → i ≠ 5 → txState.testBit i = false := by
    rcases htx with h | h | h | h <;> subst h <;> intro i h4 h5 <;>
      simp [h4, h5]
  have hrb : ∀ i, i ≠ 12 → i ≠ 13 → rxState.testBit i = false := by
    rcases hrx with h | h | h | h <;> subst h <;> intro i h12 h13 <;>
      simp [h12, h13]
  have htlt : txState < 2 ^ 16 := by
    rcases htx with h | h | h | h <;> subst h <;> decide
  have hrlt : rxState < 2 ^ 16 := by
    rcases hrx with h | h | h | h <;> subst h <;> decide
  have hrxmask : pcd_set_ep_rx_status regs bEpIdx rxState bEpIdx &&& USB_EPRX_STAT
      = rxState := by
    simp only [pcd_set_ep_rx_status, pcd_get_endpoint, pcd_set_endpoint,
      Function.update_same, hw_write_ep_reg]
    apply eq_of_low_bits (Nat.and_lt_two_pow _ (by decide)) hrlt
    intro i hi
    interval_cases i <;>
      simp only [Nat.testBit_or, Nat.testBit_and, Nat.testBit_xor, testBit_mod_65536,
        tb_EPRX_DTOGMASK, tb_CTR_RX, tb_CTR_TX, tb_EPRX_STAT, tb_EPTX_STAT, tb_rw_mask,
        tb_toggle_mask, tb_rc_w0_mask, tb_ro_mask] <;>
      simp [hrb]
  refine ⟨?_, ?_, ?_, ?_⟩
  · simp only [pcd_set_ep_tx_status, pcd_get_endpoint, pcd_set_endpoint,
      Function.update_same, hw_write_ep_reg]
    apply eq_of_low_bits (Nat.and_lt_two_pow _ (by decide)) htlt
    intro i hi
    interval_cases i <;>
      simp only [Nat.testBit_or, Nat.testBit_and, Nat.testBit_xor, testBit_mod_65536,
        tb_EPTX_DTOGMASK, tb_CTR_RX, tb_CTR_TX, tb_EPRX_STAT, tb_EPTX_STAT, tb_rw_mask,
        tb_toggle_mask, tb_rc_w0_mask, tb_ro_mask] <;>
      simp [htb]
  · simp only [pcd_set_ep_tx_status, pcd_get_endpoint, pcd_set_endpoint,
      Function.update_same, hw_write_ep_reg]
    apply eq_of_low_bits (Nat.and_lt_two_pow _ (by decide)) (Nat.and_lt_two_pow _ (by decide))
    intro i hi
    interval_cases i <;>
      simp only [Nat.testBit_or, Nat.testBit_and, Nat.testBit_xor, testBit_mod_65536,
        tb_EPTX_DTOGMASK, tb_CTR_RX, tb_CTR_TX, tb_EPRX_STAT, tb_EPTX_STAT, tb_rw_mask,
        tb_toggle_mask, tb_rc_w0_mask, tb_ro_mask] <;>
      simp [htb]
  · simp only [pcd_get_ep_rx_status, pcd_get_endpoint]
    rw [hrxmask]
  · simp only [pcd_set_ep_rx_status, pcd_get_endpoint, pcd_set_endpoint,
      Function.update_same, hw_write_ep_reg]
    apply eq_of_low_bits (Nat.and_lt_two_pow _ (by decide)) (Nat.and_lt_two_pow _ (by decide))
    intro i hi
    interval_cases i <;>
      simp only [Nat.testBit_or, Nat.testBit_and, Nat.testBit_xor, testBit_mod_65536,
        tb_EPRX_DTOGMASK, tb_CTR_RX, tb_CTR_TX, tb_EPRX_STAT, tb_EPTX_STAT, tb_rw_mask,
        tb_toggle_mask, tb_rc_w0_mask, tb_ro_mask] <;>
      simp [hrb]

/-- C7 witness: endpoint 1, initial register value `0x3C3C`, tx target stall,
rx target valid. -/
theorem pcd_set_ep_status_target_and_frame_witness :
    pcd_set_ep_tx_status (fun _ => 0x3C3C) 1 USB_EP_TX_STALL 1 &&& USB_EPTX_STAT
      = USB_EP_TX_STALL ∧
    pcd_set_ep_tx_status (fun _ => 0x3C3C) 1 USB_EP_TX_STALL 1 &&& USB_EPRX_STAT
      = (fun _ : Fin 8 => (0x3C3C : Nat)) 1 &&& USB_EPRX_STAT ∧
    pcd_get_ep_rx_status (pcd_set_ep_rx_status (fun _ => 0x3C3C) 1 USB_EP_RX_VALID) 1
      = USB_EP_RX_VALID >>> 12 ∧
    pcd_set_ep_rx_status (fun _ => 0x3C3C) 1 USB_EP_RX_VALID 1 &&& USB_EPTX_STAT
      = (fun _ : Fin 8 => (0x3C3C : Nat)) 1 &&& USB_EPTX_STAT :=
  pcd_set_ep_status_target_and_frame (fun _ => 0x3C3C) 1 USB_EP_TX_STALL USB_EP_RX_VALID
    (Or.inr (Or.inl rfl)) (Or.inr (Or.inr (Or.inr rfl)))
